import Mathlib

/-!
Verification of the observable-field container `live_data::LiveData<T>`
(src/LiveData.h) against its natural-language specification.

Embedding choices:
* A C++ listener callable (a `std::function<void(const T&)>` callback, or the
  `Observe(const T&)` method of an `IObserver<T>`) is modelled as a Lean
  function `T → Option ε`: `none` means the call returns normally, `some e`
  means the call throws the exception `e`.  Each listener additionally carries
  an `ident : Nat` tag so that its invocations can be recognised in a trace;
  the tag is pure instrumentation and has no behavioural role.
* Every operation that can invoke listeners returns, besides the updated
  container state, the list of invocation events it performed (in order) and
  the exception, if any, that escaped it.  C++ exception propagation out of the
  `for` loops of `notifyAll` is modelled by stopping the fold at the first
  listener that throws.
* `std::shared_ptr<IObserver<T>>` is modelled as `Option (IObserver T ε)`:
  `none` is a null/empty pointer, which `notifyAll`'s `if (it)` test skips.
* `operator=` is declared `noexcept` in the source while the `setValue` it
  calls is not; per C++ semantics an exception reaching a `noexcept` boundary
  calls `std::terminate`.  `assignRun` makes that outcome explicit.
-/

namespace LiveDataSpec

/-- One listener invocation performed during a notification pass:
which kind of listener was invoked (callback or observer), its identity
tag, and the value it received. -/
inductive Event (T : Type) where
  | cbCall (ident : Nat) (v : T)
  | obsCall (ident : Nat) (v : T)
deriving DecidableEq, Repr

/-- The value a listener received in this invocation. -/
def Event.val {T : Type} : Event T → T
  | .cbCall _ v => v
  | .obsCall _ v => v

/-- Embeds `LiveData<T>::OnChangedCallback = std::function<void(const T&)>`.
`call v = none` models a normal return, `call v = some e` models the callable
throwing `e`.  `ident` is an instrumentation tag identifying the callable. -/
structure OnChangedCallback (T : Type) (ε : Type) where
  ident : Nat
  call : T → Option ε

/-- Embeds the `IObserver<T>` interface: `Observe` is its single virtual
method, with `none` a normal return and `some e` a thrown exception.
`ident` is an instrumentation tag identifying the observer object. -/
structure IObserver (T : Type) (ε : Type) where
  ident : Nat
  Observe : T → Option ε

/-- Embeds the state of `live_data::LiveData<T>`: the two listener vectors
and the held value `data_`.  A `none` entry of `observers` is a null
`std::shared_ptr`. -/
structure LiveData (T : Type) (ε : Type) where
  callbacks : List (OnChangedCallback T ε)
  observers : List (Option (IObserver T ε))
  data_ : T

/-- Embeds the first loop of `notifyAll`:
`for (const auto& it : callbacks) it(data_);`.
Runs the callbacks in list order on `v`; stops at the first one that throws,
propagating its exception.  Returns the invocation events performed (the
throwing callback was invoked, so its event is recorded) and the escaping
exception, if any. -/
def runCallbackList {T ε : Type} : List (OnChangedCallback T ε) → T → List (Event T) × Option ε
  | [], _ => ([], none)
  | c :: cs, v =>
    match c.call v with
    | some e => ([Event.cbCall c.ident v], some e)
    | none =>
      let r := runCallbackList cs v
      (Event.cbCall c.ident v :: r.1, r.2)

/-- Embeds the second loop of `notifyAll`:
`for (std::shared_ptr<IObserver<T>> it : observers) if (it) it->Observe(data_);`.
Null entries are skipped; the rest run in list order on `v`, stopping at the
first observer that throws. -/
def runObserverList {T ε : Type} : List (Option (IObserver T ε)) → T → List (Event T) × Option ε
  | [], _ => ([], none)
  | none :: os, v => runObserverList os v
  | some o :: os, v =>
    match o.Observe v with
    | some e => ([Event.obsCall o.ident v], some e)
    | none =>
      let r := runObserverList os v
      (Event.obsCall o.ident v :: r.1, r.2)

/-- Embeds `LiveData<T>::notifyAll()`: all callbacks first, then all
observers, both on the currently stored value; an exception thrown in the
callback loop prevents the observer loop from running at all. -/
def LiveData.notifyAll {T ε : Type} (ld : LiveData T ε) : List (Event T) × Option ε :=
  let rc := runCallbackList ld.callbacks ld.data_
  match rc.2 with
  | some e => (rc.1, some e)
  | none =>
    let ro := runObserverList ld.observers ld.data_
    (rc.1 ++ ro.1, ro.2)

/-- Embeds `LiveData<T>::setValue(U&&)`: first `data_ = std::forward<U>(data)`,
then `notifyAll()`.  The returned state is the container after the assignment
— it is the state the object is left in even when `notifyAll` throws, since
the assignment happens before notification. -/
def LiveData.setValue {T ε : Type} (ld : LiveData T ε) (v : T) :
    LiveData T ε × List (Event T) × Option ε :=
  let ld2 : LiveData T ε := { ld with data_ := v }
  let r := ld2.notifyAll
  (ld2, r.1, r.2)

/-- Embeds `LiveData<T>::setValueQuietly(U&&)`: only the assignment, no
notification — hence the empty event list. -/
def LiveData.setValueQuietly {T ε : Type} (ld : LiveData T ε) (v : T) :
    LiveData T ε × List (Event T) :=
  ({ ld with data_ := v }, [])

/-- Embeds `LiveData<T>::Get()`: returns the stored value. -/
def LiveData.Get {T ε : Type} (ld : LiveData T ε) : T := ld.data_

/-- Embeds the callback overload of `LiveData<T>::addObserver`:
`callbacks.push_back(callback)`.  No listener is invoked, hence the empty
event list. -/
def LiveData.addObserverCb {T ε : Type} (ld : LiveData T ε) (c : OnChangedCallback T ε) :
    LiveData T ε × List (Event T) :=
  ({ ld with callbacks := ld.callbacks ++ [c] }, [])

/-- Embeds the observer overload of `LiveData<T>::addObserver`:
`observers.push_back(observer)` — the pointer is stored as-is, null or not. -/
def LiveData.addObserverObs {T ε : Type} (ld : LiveData T ε) (o : Option (IObserver T ε)) :
    LiveData T ε × List (Event T) :=
  ({ ld with observers := ld.observers ++ [o] }, [])

/-- Embeds `LiveData<T>::clearCallbacksAndObservers()`:
`callbacks.clear(); observers.clear();`. -/
def LiveData.clearCallbacksAndObservers {T ε : Type} (ld : LiveData T ε) : LiveData T ε :=
  { ld with callbacks := [], observers := [] }

/-- Embeds `LiveData<T>::operator=(const T&)`: `setValue(data); return *this;`.
The returned state is `*this` after the call. -/
def LiveData.assign {T ε : Type} (ld : LiveData T ε) (v : T) :
    LiveData T ε × List (Event T) × Option ε :=
  ld.setValue v

/-- Outcome of a call to the `noexcept` `operator=`: either it returns
normally (yielding `*this` and the events performed), or an exception escaped
the notification pass, hit the `noexcept` boundary and the program was
terminated by `std::terminate`. -/
inductive AssignRes (T : Type) (ε : Type) where
  | returns (self : LiveData T ε) (events : List (Event T))
  | terminated (events : List (Event T))

/-- Embeds `operator=` together with its `noexcept` specifier: `setValue` may
throw (it is not `noexcept`), and an exception escaping it inside the
`noexcept` `operator=` calls `std::terminate` instead of propagating. -/
def LiveData.assignRun {T ε : Type} (ld : LiveData T ε) (v : T) : AssignRes T ε :=
  let r := ld.setValue v
  match r.2.2 with
  | some _ => AssignRes.terminated r.2.1
  | none => AssignRes.returns r.1 r.2.1

/-- Embeds the forwarding constructor
`LiveData(Args&&... args) : data_(T(std::forward<Args>(args)...))`:
`v` stands for the value `T(args...)` the forwarded arguments construct.
Both listener vectors start empty and no listener is invoked (empty event
list). -/
def LiveData.construct {T : Type} (ε : Type) (v : T) : LiveData T ε × List (Event T) :=
  ({ callbacks := [], observers := [], data_ := v }, [])

/-! Observation helpers (not part of the source; they name components of the
results above so that the specification claims can be stated). -/

/-- The container state after `setValue`. -/
def setState {T ε : Type} (ld : LiveData T ε) (v : T) : LiveData T ε := (ld.setValue v).1

/-- The invocation events performed by `setValue`. -/
def setTrace {T ε : Type} (ld : LiveData T ε) (v : T) : List (Event T) := (ld.setValue v).2.1

/-- The exception escaping `setValue`, if any. -/
def setErr {T ε : Type} (ld : LiveData T ε) (v : T) : Option ε := (ld.setValue v).2.2

/-- The values received by callback `i`, in order, within a trace. -/
def cbCalls {T : Type} (i : Nat) (tr : List (Event T)) : List T :=
  tr.filterMap fun e => match e with
    | .cbCall j v => if j = i then some v else none
    | .obsCall _ _ => none

/-- The values received by observer `i`, in order, within a trace. -/
def obsCalls {T : Type} (i : Nat) (tr : List (Event T)) : List T :=
  tr.filterMap fun e => match e with
    | .obsCall j v => if j = i then some v else none
    | .cbCall _ _ => none

/-- How many registered callback entries carry the tag `i`. -/
def cbCount {T ε : Type} (i : Nat) (cs : List (OnChangedCallback T ε)) : Nat :=
  cs.countP fun c => c.ident == i

/-- How many registered non-null observer entries carry the tag `i`. -/
def obsCount {T ε : Type} (i : Nat) (os : List (Option (IObserver T ε))) : Nat :=
  (os.filterMap id).countP fun o => o.ident == i

/-- The ambient contract of the specification's error-handling section:
every registered callback and every non-null registered observer returns
normally when invoked with `v` (no listener throws). -/
def NoThrow {T ε : Type} (cbs : List (OnChangedCallback T ε))
    (obs : List (Option (IObserver T ε))) (v : T) : Prop :=
  (∀ c ∈ cbs, c.call v = none) ∧ (∀ o ∈ obs.filterMap id, o.Observe v = none)

/-! Core lemmas about the notification pass. -/

theorem runCallbackList_noThrow {T ε : Type} (cs : List (OnChangedCallback T ε)) (v : T)
    (h : ∀ c ∈ cs, c.call v = none) :
    runCallbackList cs v = (cs.map fun c => Event.cbCall c.ident v, none) := by
  induction cs with
  | nil => rfl
  | cons c cs ih =>
    have hc : c.call v = none := h c (List.mem_cons_self c cs)
    have ht := ih fun d hd => h d (List.mem_cons_of_mem c hd)
    simp [runCallbackList, hc, ht]

theorem runObserverList_noThrow {T ε : Type} (os : List (Option (IObserver T ε))) (v : T)
    (h : ∀ o ∈ os.filterMap id, o.Observe v = none) :
    runObserverList os v = ((os.filterMap id).map fun o => Event.obsCall o.ident v, none) := by
  induction os with
  | nil => rfl
  | cons o os ih =>
    cases o with
    | none =>
      have ht := ih (by simpa [List.filterMap_cons] using h)
      simpa [runObserverList, List.filterMap_cons] using ht
    | some o =>
      have hsub : ∀ p ∈ os.filterMap id, p.Observe v = none := by
        intro p hp
        exact h p (by simp [List.filterMap_cons, hp])
      have ho : o.Observe v = none := h o (by simp [List.filterMap_cons])
      have ht := ih hsub
      simp [runObserverList, ho, ht, List.filterMap_cons]

theorem notifyAll_noThrow {T ε : Type} (ld : LiveData T ε)
    (h : NoThrow ld.callbacks ld.observers ld.data_) :
    ld.notifyAll = ((ld.callbacks.map fun c => Event.cbCall c.ident ld.data_) ++
      ((ld.observers.filterMap id).map fun o => Event.obsCall o.ident ld.data_), none) := by
  unfold LiveData.notifyAll
  rw [runCallbackList_noThrow _ _ h.1, runObserverList_noThrow _ _ h.2]

theorem setValue_noThrow {T ε : Type} (ld : LiveData T ε) (v : T)
    (h : NoThrow ld.callbacks ld.observers v) :
    ld.setValue v = ({ ld with data_ := v },
      (ld.callbacks.map fun c => Event.cbCall c.ident v) ++
      ((ld.observers.filterMap id).map fun o => Event.obsCall o.ident v), none) := by
  have hn := notifyAll_noThrow ({ ld with data_ := v } : LiveData T ε) h
  unfold LiveData.setValue
  simp only [hn]

@[simp] theorem setState_callbacks {T ε : Type} (ld : LiveData T ε) (v : T) :
    (setState ld v).callbacks = ld.callbacks := rfl

@[simp] theorem setState_observers {T ε : Type} (ld : LiveData T ε) (v : T) :
    (setState ld v).observers = ld.observers := rfl

@[simp] theorem setState_Get {T ε : Type} (ld : LiveData T ε) (v : T) :
    (setState ld v).Get = v := rfl

theorem setTrace_noThrow {T ε : Type} (ld : LiveData T ε) (v : T)
    (h : NoThrow ld.callbacks ld.observers v) :
    setTrace ld v = (ld.callbacks.map fun c => Event.cbCall c.ident v) ++
      ((ld.observers.filterMap id).map fun o => Event.obsCall o.ident v) := by
  unfold setTrace
  rw [setValue_noThrow ld v h]

theorem setErr_noThrow {T ε : Type} (ld : LiveData T ε) (v : T)
    (h : NoThrow ld.callbacks ld.observers v) :
    setErr ld v = none := by
  unfold setErr
  rw [setValue_noThrow ld v h]

theorem mem_setTrace_val {T ε : Type} (ld : LiveData T ε) (v : T)
    (h : NoThrow ld.callbacks ld.observers v) :
    ∀ e ∈ setTrace ld v, e.val = v := by
  rw [setTrace_noThrow ld v h]
  intro e he
  rcases List.mem_append.1 he with he | he <;>
  · rcases List.mem_map.1 he with ⟨x, _, rfl⟩
    rfl

theorem cbCalls_append {T : Type} (i : Nat) (t1 t2 : List (Event T)) :
    cbCalls i (t1 ++ t2) = cbCalls i t1 ++ cbCalls i t2 := by
  simp [cbCalls, List.filterMap_append]

theorem obsCalls_append {T : Type} (i : Nat) (t1 t2 : List (Event T)) :
    obsCalls i (t1 ++ t2) = obsCalls i t1 ++ obsCalls i t2 := by
  simp [obsCalls, List.filterMap_append]

theorem cbCalls_cbMap {T ε : Type} (i : Nat) (v : T) (cs : List (OnChangedCallback T ε)) :
    cbCalls i (cs.map fun c => Event.cbCall c.ident v) = List.replicate (cbCount i cs) v := by
  induction cs with
  | nil => rfl
  | cons c cs ih =>
    by_cases h : c.ident = i <;>
      simp_all [cbCalls, cbCount, List.countP_cons, List.replicate_succ]

theorem cbCalls_obsMap {T ε : Type} (i : Nat) (v : T) (os : List (IObserver T ε)) :
    cbCalls i (os.map fun o => Event.obsCall o.ident v) = [] := by
  induction os with
  | nil => rfl
  | cons o os ih => simp_all [cbCalls]

theorem obsCalls_cbMap {T ε : Type} (i : Nat) (v : T) (cs : List (OnChangedCallback T ε)) :
    obsCalls i (cs.map fun c => Event.cbCall c.ident v) = [] := by
  induction cs with
  | nil => rfl
  | cons c cs ih => simp_all [obsCalls]

theorem obsCalls_obsMap {T ε : Type} (i : Nat) (v : T) (os : List (IObserver T ε)) :
    obsCalls i (os.map fun o => Event.obsCall o.ident v) =
      List.replicate (os.countP fun o => o.ident == i) v := by
  induction os with
  | nil => rfl
  | cons o os ih =>
    by_cases h : o.ident = i <;>
      simp_all [obsCalls, List.countP_cons, List.replicate_succ]

theorem cbCalls_setTrace {T ε : Type} (ld : LiveData T ε) (v : T)
    (h : NoThrow ld.callbacks ld.observers v) (i : Nat) :
    cbCalls i (setTrace ld v) = List.replicate (cbCount i ld.callbacks) v := by
  rw [setTrace_noThrow ld v h, cbCalls_append, cbCalls_cbMap, cbCalls_obsMap]
  simp

theorem obsCalls_setTrace {T ε : Type} (ld : LiveData T ε) (v : T)
    (h : NoThrow ld.callbacks ld.observers v) (i : Nat) :
    obsCalls i (setTrace ld v) = List.replicate (obsCount i ld.observers) v := by
  rw [setTrace_noThrow ld v h, obsCalls_append, obsCalls_cbMap, obsCalls_obsMap]
  simp [obsCount]

/-- Shared helper: the full specification of two consecutive `setValue`
calls under the no-throw contract — final value, intermediate value, values
received, and per-listener invocation lists. -/
theorem set_then_set_spec {T ε : Type} (ld : LiveData T ε) (v1 v2 : T)
    (h1 : NoThrow ld.callbacks ld.observers v1)
    (h2 : NoThrow ld.callbacks ld.observers v2) :
    (setState (setState ld v1) v2).Get = v2 ∧
    (setState ld v1).Get = v1 ∧
    (∀ e ∈ setTrace ld v1, e.val = (setState ld v1).Get) ∧
    (∀ e ∈ setTrace (setState ld v1) v2, e.val = (setState (setState ld v1) v2).Get) ∧
    (∀ i, cbCount i ld.callbacks = 1 →
      cbCalls i (setTrace ld v1 ++ setTrace (setState ld v1) v2) = [v1, v2]) ∧
    (∀ i, obsCount i ld.observers = 1 →
      obsCalls i (setTrace ld v1 ++ setTrace (setState ld v1) v2) = [v1, v2]) := by
  refine ⟨rfl, rfl, mem_setTrace_val ld v1 h1, mem_setTrace_val (setState ld v1) v2 h2,
    ?_, ?_⟩
  · intro i hi
    rw [cbCalls_append, cbCalls_setTrace ld v1 h1 i, cbCalls_setTrace (setState ld v1) v2 h2 i]
    simp [hi]
  · intro i hi
    rw [obsCalls_append, obsCalls_setTrace ld v1 h1 i, obsCalls_setTrace (setState ld v1) v2 h2 i]
    simp [hi]

/-! Concrete containers used by the witness theorems. -/

/-- One callback (tag 0), one observer (tag 1), one null observer slot. -/
def wLD1 : LiveData Nat Nat :=
  { callbacks := [{ ident := 0, call := fun _ => none }],
    observers := [some { ident := 1, Observe := fun _ => none }, none],
    data_ := 0 }

/-- Two callbacks (tags 0, 1) and one observer (tag 2). -/
def wLD2 : LiveData Nat Nat :=
  { callbacks := [{ ident := 0, call := fun _ => none }, { ident := 1, call := fun _ => none }],
    observers := [some { ident := 2, Observe := fun _ => none }],
    data_ := 0 }

/-- One callback (tag 0) and one observer (tag 1); used for chaining. -/
def wLD4 : LiveData Nat Nat :=
  { callbacks := [{ ident := 0, call := fun _ => none }],
    observers := [some { ident := 1, Observe := fun _ => none }],
    data_ := 0 }

/-- A null observer slot between a callback (tag 0) and an observer (tag 2). -/
def wLD5 : LiveData Nat Nat :=
  { callbacks := [{ ident := 0, call := fun _ => none }],
    observers := [none, some { ident := 2, Observe := fun _ => none }],
    data_ := 0 }

/-- The callback with tag 0 registered twice, around a different one. -/
def wLD10 : LiveData Nat Nat :=
  { callbacks := [{ ident := 0, call := fun _ => none }, { ident := 1, call := fun _ => none },
      { ident := 0, call := fun _ => none }],
    observers := [],
    data_ := 0 }

/-! Claim theorems. -/

/-- C1: for every two values `v1`, `v2`, calling `setValue v1` and then
`setValue v2` leaves `Get` returning `v2`; every callback and every non-null
observer registered (once) before both calls is invoked exactly twice,
receiving `v1` on the first call and `v2` on the second; each invocation
happens after the stored value has already been replaced, i.e. the value a
listener receives is exactly the value stored at notification time.
(Per the spec's error-handling contract, listeners are assumed not to
throw.) -/
theorem C1_set_then_set {T ε : Type} (ld : LiveData T ε) (v1 v2 : T)
    (h1 : NoThrow ld.callbacks ld.observers v1)
    (h2 : NoThrow ld.callbacks ld.observers v2) :
    (setState (setState ld v1) v2).Get = v2 ∧
    (setState ld v1).Get = v1 ∧
    (∀ e ∈ setTrace ld v1, e.val = (setState ld v1).Get) ∧
    (∀ e ∈ setTrace (setState ld v1) v2, e.val = (setState (setState ld v1) v2).Get) ∧
    (∀ i, cbCount i ld.callbacks = 1 →
      cbCalls i (setTrace ld v1 ++ setTrace (setState ld v1) v2) = [v1, v2]) ∧
    (∀ i, obsCount i ld.observers = 1 →
      obsCalls i (setTrace ld v1 ++ setTrace (setState ld v1) v2) = [v1, v2]) :=
  set_then_set_spec ld v1 v2 h1 h2

/-- Witness for C1: a container with one callback (tag 0) and one observer
(tag 1); setting 3 then 7 yields `Get = 7` and both listeners receive
`[3, 7]`. -/
theorem C1_set_then_set_witness :
    (NoThrow wLD1.callbacks wLD1.observers 3 ∧ NoThrow wLD1.callbacks wLD1.observers 7) ∧
    (setState (setState wLD1 3) 7).Get = 7 ∧
    cbCalls 0 (setTrace wLD1 3 ++ setTrace (setState wLD1 3) 7) = [3, 7] ∧
    obsCalls 1 (setTrace wLD1 3 ++ setTrace (setState wLD1 3) 7) = [3, 7] := by
  have h1 : NoThrow wLD1.callbacks wLD1.observers 3 := ⟨by decide, by decide⟩
  have h2 : NoThrow wLD1.callbacks wLD1.observers 7 := ⟨by decide, by decide⟩
  have hc := C1_set_then_set wLD1 3 7 h1 h2
  exact ⟨⟨h1, h2⟩, hc.1, hc.2.2.2.2.1 0 (by decide), hc.2.2.2.2.2 1 (by decide)⟩

/-- C2: a `setValue` (or `assign`) call notifies in two fixed passes — all
callbacks first, in insertion order, then all (non-null) observers, in
insertion order — and every listener receives the new value.  (Listeners
are assumed not to throw, per the spec's error-handling contract.) -/
theorem C2_two_pass_order {T ε : Type} (ld : LiveData T ε) (v : T)
    (h : NoThrow ld.callbacks ld.observers v) :
    setTrace ld v = (ld.callbacks.map fun c => Event.cbCall c.ident v) ++
      ((ld.observers.filterMap id).map fun o => Event.obsCall o.ident v) ∧
    (ld.assign v).2.1 = setTrace ld v ∧
    ∀ e ∈ setTrace ld v, e.val = v :=
  ⟨setTrace_noThrow ld v h, rfl, mem_setTrace_val ld v h⟩

/-- Witness for C2: two callbacks and one observer; the trace is both
callback events (in insertion order) followed by the observer event. -/
theorem C2_two_pass_order_witness :
    NoThrow wLD2.callbacks wLD2.observers 5 ∧
    setTrace wLD2 5 = [Event.cbCall 0 5, Event.cbCall 1 5, Event.obsCall 2 5] := by
  have h : NoThrow wLD2.callbacks wLD2.observers 5 := ⟨by decide, by decide⟩
  refine ⟨h, ?_⟩
  rw [(C2_two_pass_order wLD2 5 h).1]
  rfl

/-- C3: `setValueQuietly v` updates the stored value so that `Get` returns
`v`, performs zero listener invocations, and leaves both listener sequences
unchanged. -/
theorem C3_setValueQuietly {T ε : Type} (ld : LiveData T ε) (v : T) :
    (ld.setValueQuietly v).1.Get = v ∧
    (ld.setValueQuietly v).2 = [] ∧
    (ld.setValueQuietly v).1.callbacks = ld.callbacks ∧
    (ld.setValueQuietly v).1.observers = ld.observers :=
  ⟨rfl, rfl, rfl, rfl⟩

/-- C4: `operator=` (assign) is observably equivalent to `setValue`: same
resulting state, same events, same escaping exception; it returns the
container itself (the post-update `*this`), so chained assignment
`a = v1; = v2` leaves the container holding `v2` and fires the notification
pass for both values.  (For the chaining trace, listeners are assumed not to
throw.) -/
theorem C4_assign_equiv_set {T ε : Type} (ld : LiveData T ε) (v v1 v2 : T)
    (h1 : NoThrow ld.callbacks ld.observers v1)
    (h2 : NoThrow ld.callbacks ld.observers v2) :
    ld.assign v = ld.setValue v ∧
    (ld.assign v).1 = setState ld v ∧
    ((ld.assign v1).1.assign v2).1.Get = v2 ∧
    (∀ i, cbCount i ld.callbacks = 1 →
      cbCalls i ((ld.assign v1).2.1 ++ ((ld.assign v1).1.assign v2).2.1) = [v1, v2]) ∧
    (∀ i, obsCount i ld.observers = 1 →
      obsCalls i ((ld.assign v1).2.1 ++ ((ld.assign v1).1.assign v2).2.1) = [v1, v2]) := by
  have hc := set_then_set_spec ld v1 v2 h1 h2
  exact ⟨rfl, rfl, hc.1, hc.2.2.2.2.1, hc.2.2.2.2.2⟩

/-- Witness for C4: assigning 3 then 7 by chained `operator=` leaves the
container holding 7 and the callback (tag 0) receives `[3, 7]`. -/
theorem C4_assign_equiv_set_witness :
    (NoThrow wLD4.callbacks wLD4.observers 3 ∧ NoThrow wLD4.callbacks wLD4.observers 7) ∧
    wLD4.assign 3 = wLD4.setValue 3 ∧
    ((wLD4.assign 3).1.assign 7).1.Get = 7 ∧
    cbCalls 0 ((wLD4.assign 3).2.1 ++ ((wLD4.assign 3).1.assign 7).2.1) = [3, 7] := by
  have h1 : NoThrow wLD4.callbacks wLD4.observers 3 := ⟨by decide, by decide⟩
  have h2 : NoThrow wLD4.callbacks wLD4.observers 7 := ⟨by decide, by decide⟩
  have hc := C4_assign_equiv_set wLD4 3 3 7 h1 h2
  exact ⟨⟨h1, h2⟩, hc.1, hc.2.2.1, hc.2.2.2.1 0 (by decide)⟩

/-- C5: a null/empty observer reference in the observer sequence does not
make `setValue` fail — no exception escapes — and the trace still contains
every callback and every non-null observer: the null slot contributes no
event (it is skipped), since only the `filterMap id` survivors appear. -/
theorem C5_null_observer_skipped {T ε : Type} (ld : LiveData T ε) (v : T)
    (_hnull : none ∈ ld.observers)
    (h : NoThrow ld.callbacks ld.observers v) :
    setErr ld v = none ∧
    setTrace ld v = (ld.callbacks.map fun c => Event.cbCall c.ident v) ++
      ((ld.observers.filterMap id).map fun o => Event.obsCall o.ident v) :=
  ⟨setErr_noThrow ld v h, setTrace_noThrow ld v h⟩

/-- Witness for C5: with a null slot before the observer with tag 2, setting
4 does not fail and both remaining listeners run. -/
theorem C5_null_observer_skipped_witness :
    (none ∈ wLD5.observers ∧ NoThrow wLD5.callbacks wLD5.observers 4) ∧
    setErr wLD5 4 = none ∧
    setTrace wLD5 4 = [Event.cbCall 0 4, Event.obsCall 2 4] := by
  have hnull : none ∈ wLD5.observers := by simp [wLD5]
  have h : NoThrow wLD5.callbacks wLD5.observers 4 := ⟨by decide, by decide⟩
  have hc := C5_null_observer_skipped wLD5 4 hnull h
  refine ⟨⟨hnull, h⟩, hc.1, ?_⟩
  rw [hc.2]
  rfl

/-- C6: `clearCallbacksAndObservers` empties both listener sequences, leaves
the stored value unchanged, and is idempotent; after it, a `setValue v`
invokes zero listeners (empty trace, no exception) while `Get` returns
`v`. -/
theorem C6_clearListeners {T ε : Type} (ld : LiveData T ε) (v : T) :
    ld.clearCallbacksAndObservers.callbacks = [] ∧
    ld.clearCallbacksAndObservers.observers = [] ∧
    ld.clearCallbacksAndObservers.Get = ld.Get ∧
    ld.clearCallbacksAndObservers.clearCallbacksAndObservers = ld.clearCallbacksAndObservers ∧
    setTrace ld.clearCallbacksAndObservers v = [] ∧
    setErr ld.clearCallbacksAndObservers v = none ∧
    (setState ld.clearCallbacksAndObservers v).Get = v :=
  ⟨rfl, rfl, rfl, rfl, rfl, rfl, rfl⟩

/-- A concrete container whose second registered callback (tag 1) throws
`9`; the later callback (tag 2) and the observer (tag 3) come after it. -/
def throwingLD : LiveData Nat Nat :=
  { callbacks := [{ ident := 0, call := fun _ => none },
      { ident := 1, call := fun _ => some 9 },
      { ident := 2, call := fun _ => none }],
    observers := [some { ident := 3, Observe := fun _ => none }],
    data_ := 0 }

/-- C7, evaluated at the failing input: when the callback with tag 1 throws
`9` during `setValue 5`, the exception escapes `setValue` (`setErr = some 9`)
and the remaining listeners (callback tag 2, observer tag 3) are not invoked
— fail-fast holds for `setValue`, and the stored value is already `5`. But
the same failure during `operator=`, which the source declares `noexcept`
although the `setValue` it calls can throw, terminates the program instead
of propagating to the caller — against the claim's "rather than ...
terminating the program" for `assign`. -/
theorem C7_failing_input_eval :
    setErr throwingLD 5 = some 9 ∧
    setTrace throwingLD 5 = [Event.cbCall 0 5, Event.cbCall 1 5] ∧
    (setState throwingLD 5).Get = 5 ∧
    throwingLD.assignRun 5 = AssignRes.terminated [Event.cbCall 0 5, Event.cbCall 1 5] :=
  ⟨rfl, rfl, rfl, rfl⟩

/-- C8: a container constructed with forwarding arguments holds exactly the
value those arguments construct (`Get` returns it), starts with empty
listener sequences, and performs zero listener invocations at construction
time. -/
theorem C8_construct {T : Type} (ε : Type) (v : T) :
    (LiveData.construct ε v).1.Get = v ∧
    (LiveData.construct ε v).2 = [] ∧
    (LiveData.construct ε v).1.callbacks = [] ∧
    (LiveData.construct ε v).1.observers = [] :=
  ⟨rfl, rfl, rfl, rfl⟩

/-- C9: the listener sequences only grow — by exactly one appended entry —
via the two `addObserver` overloads, only shrink (to empty) via
`clearCallbacksAndObservers`, and are left unchanged by `setValue` and
`setValueQuietly`; `Get` is a pure read of the stored value and changes
nothing. -/
theorem C9_sequences_frame {T ε : Type} (ld : LiveData T ε) (c : OnChangedCallback T ε)
    (o : Option (IObserver T ε)) (v : T) :
    ((ld.addObserverCb c).1.callbacks = ld.callbacks ++ [c] ∧
      (ld.addObserverCb c).1.observers = ld.observers) ∧
    ((ld.addObserverObs o).1.observers = ld.observers ++ [o] ∧
      (ld.addObserverObs o).1.callbacks = ld.callbacks) ∧
    (ld.clearCallbacksAndObservers.callbacks = [] ∧
      ld.clearCallbacksAndObservers.observers = []) ∧
    ((setState ld v).callbacks = ld.callbacks ∧ (setState ld v).observers = ld.observers) ∧
    ((ld.setValueQuietly v).1.callbacks = ld.callbacks ∧
      (ld.setValueQuietly v).1.observers = ld.observers) ∧
    ld.Get = ld.data_ :=
  ⟨⟨rfl, rfl⟩, ⟨rfl, rfl⟩, ⟨rfl, rfl⟩, ⟨rfl, rfl⟩, ⟨rfl, rfl⟩, rfl⟩

/-- C10: a callback whose tag occurs `k` times among the registered
callbacks is invoked exactly `k` times by a `setValue v`, each time with
`v` (`replicate k v`); and registration itself invokes no listener and
leaves the stored value unchanged. -/
theorem C10_duplicate_callbacks {T ε : Type} (ld : LiveData T ε) (v : T) (i : Nat)
    (c : OnChangedCallback T ε) (o : Option (IObserver T ε))
    (h : NoThrow ld.callbacks ld.observers v) :
    cbCalls i (setTrace ld v) = List.replicate (cbCount i ld.callbacks) v ∧
    ((ld.addObserverCb c).2 = [] ∧ (ld.addObserverCb c).1.Get = ld.Get) ∧
    ((ld.addObserverObs o).2 = [] ∧ (ld.addObserverObs o).1.Get = ld.Get) :=
  ⟨cbCalls_setTrace ld v h i, ⟨rfl, rfl⟩, ⟨rfl, rfl⟩⟩

/-- Witness for C10: the callback with tag 0 is registered twice, so
`setValue 4` invokes it exactly twice, both times with 4. -/
theorem C10_duplicate_callbacks_witness :
    NoThrow wLD10.callbacks wLD10.observers 4 ∧
    cbCount 0 wLD10.callbacks = 2 ∧
    cbCalls 0 (setTrace wLD10 4) = [4, 4] := by
  have h : NoThrow wLD10.callbacks wLD10.observers 4 := ⟨by decide, by decide⟩
  have hc := C10_duplicate_callbacks wLD10 4 0
    { ident := 5, call := fun _ => none } none h
  refine ⟨h, by decide, ?_⟩
  rw [hc.1]
  decide

end LiveDataSpec
